import Mathlib

/-!
Verification of the interpreter-resolution and wheel-build core of
`lpm.py` (module `lpm`), shallowly embedded in Lean 4.

The two functions under study are `_resolve_python_executable` and
`build_python_package_from_pip`.  Runtime and OS state consulted by the
Python code (`sys.executable`, `sys.frozen`, `os.path.exists`,
`shutil.which`) is made explicit as a `SysEnv` record; filesystem
directory state is a list of existing directory paths; the external
`subprocess.run` is an injected exit-status function, and the commands
passed to it are recorded in an outcome trace.
-/

namespace LPM

/-- Model of Python `str.startswith`: the first `pre.length` characters of
`s` equal `pre`. -/
def startswith (s pre : String) : Bool :=
  s.toList.take pre.length == pre.toList

/-- Model of `os.path.basename` on POSIX: the part of the path after the
final slash (computed as the longest slash-free suffix). -/
def basename (p : String) : String :=
  ⟨(p.toList.reverse.takeWhile (fun c => c != '/')).reverse⟩

/-- The runtime/OS state read by `_resolve_python_executable`:
`sys.executable`, `getattr(sys, "frozen", False)`, `os.path.exists`,
and the results of `shutil.which("python3")` / `shutil.which("python")`. -/
structure SysEnv where
  executable : String
  frozen : Bool
  pathExists : String → Bool
  whichPython3 : Option String
  whichPython : Option String

/-- The candidate list built by `_resolve_python_executable`:
`sys.executable` is appended only when it is truthy and exists on disk,
then the two `shutil.which` results are appended unconditionally
(`lpm.py` lines 43-57). -/
def candidates (env : SysEnv) : List (Option String) :=
  (if !env.executable.isEmpty && env.pathExists env.executable
   then [some env.executable] else [])
  ++ [env.whichPython3, env.whichPython]

/-- The frozen-launcher rejection condition applied inside the candidate
loop (`lpm.py` lines 63-71): the candidate equals `sys.executable`, the
process is frozen, and the candidate basename does not start with
`python`. -/
def launcherRejected (env : SysEnv) (candidate : String) : Bool :=
  candidate == env.executable && env.frozen
    && !(startswith (basename candidate) "python")

/-- The candidate loop of `_resolve_python_executable` (`lpm.py` lines
59-72): skip falsy or non-existent entries, skip entries rejected by the
frozen-launcher condition, return the first survivor. -/
def firstUsable (env : SysEnv) : List (Option String) → Option String
  | [] => none
  | c :: rest =>
    match c with
    | none => firstUsable env rest
    | some cand =>
      if cand.isEmpty || !env.pathExists cand then firstUsable env rest
      else if launcherRejected env cand then firstUsable env rest
      else some cand

/-- Model of Python `repr` as used on the candidates (strings without
quote characters, and `None`). -/
def pyRepr : Option String → String
  | none => "None"
  | some s => "'" ++ s ++ "'"

/-- The `RuntimeError` message built when no candidate survives
(`lpm.py` lines 74-78). -/
def resolutionErrorMessage (cs : List (Option String)) : String :=
  "Unable to determine a Python interpreter; tried the following "
    ++ "candidates: " ++ String.intercalate ", " (cs.map pyRepr)

/-- The candidate-search phase of `_resolve_python_executable` (after the
explicit-path early return): loop over `candidates`, and on failure raise
`RuntimeError` with the enumerating message. -/
def resolveFromCandidates (env : SysEnv) : Except String String :=
  match firstUsable env (candidates env) with
  | some c => .ok c
  | none => .error (resolutionErrorMessage (candidates env))

/-- Embedding of `_resolve_python_executable` (`lpm.py` lines 20-78).
A truthy `explicit` argument is returned verbatim; otherwise the
candidate search runs.  Errors carry the `RuntimeError` message. -/
def _resolve_python_executable (env : SysEnv) (explicit : Option String) :
    Except String String :=
  match explicit with
  | some e => if !e.isEmpty then .ok e else resolveFromCandidates env
  | none => resolveFromCandidates env

end LPM

namespace LPM

/-- A concrete environment in which nothing exists on disk and PATH has no
python: used to exercise the explicit-path early return. -/
def envNothing : SysEnv :=
  { executable := "/frozen/lpm"
  , frozen := true
  , pathExists := fun _ => false
  , whichPython3 := none
  , whichPython := none }

/-- A concrete non-frozen environment whose interpreter exists on disk. -/
def envPlain : SysEnv :=
  { executable := "/usr/bin/python3.11"
  , frozen := false
  , pathExists := fun p => p == "/usr/bin/python3.11"
  , whichPython3 := none
  , whichPython := none }

/-- A frozen-bundle environment: the self path is a launcher whose
basename does not start with `python`, it exists on disk, and PATH
provides `python3`. -/
def envFrozen : SysEnv :=
  { executable := "/app/launcher"
  , frozen := true
  , pathExists := fun p => p == "/app/launcher" || p == "/usr/bin/python3"
  , whichPython3 := some "/usr/bin/python3"
  , whichPython := none }

/-- Spec 4.1 step 2, written from the spec's words for the refinement
claim: the fixed priority list self interpreter, PATH `python3`, PATH
`python`, with the self entry present unconditionally. -/
def specOrderedCandidates (env : SysEnv) : List (Option String) :=
  [some env.executable, env.whichPython3, env.whichPython]

/-- Spec 4.1 step 3, written from the spec's words: a candidate survives
when it is present, non-empty, exists on disk, and is not rejected by the
frozen-launcher check. -/
def specSurvives (env : SysEnv) : Option String → Bool
  | none => false
  | some c => (!c.isEmpty && env.pathExists c) && !launcherRejected env c

/-- Spec 4.1 step 4, written from the spec's words: the first surviving
candidate in the fixed order, if any. -/
def specFirstSurvivor (env : SysEnv) : Option String :=
  ((specOrderedCandidates env).find? (specSurvives env)).bind id

/-- Python error values raised by `build_python_package_from_pip`:
`RuntimeError` from resolution, `OSError` from `Path.mkdir`, and
`subprocess.CalledProcessError` from `subprocess.run(check=True)`. -/
inductive PyError where
  | runtimeError (msg : String)
  | osError (msg : String)
  | calledProcessError (returncode : Int) (cmd : List String)
deriving DecidableEq

/-- Model of `str(Path(destination))`: pathlib's cosmetic normalization
(collapsing duplicate slashes or dot segments) is not modelled, so the
path string is kept as written. -/
def pathStr (p : String) : String := p

/-- Split a path string at every slash, matching Python
`p.split("/")`. -/
def splitOnSlash (p : String) : List String :=
  (p.toList.foldr
    (fun c acc =>
      if c == '/' then [] :: acc
      else (c :: acc.headD []) :: acc.tail)
    [[]]).map (fun cs => (⟨cs⟩ : String))

/-- Join path components with slashes. -/
def joinSlash : List String → String
  | [] => ""
  | [part] => part
  | part :: rest => part ++ "/" ++ joinSlash rest

/-- The proper ancestor directories of `p`, outermost first: the chain
that `Path(p).mkdir(parents=True)` creates before `p` itself (for
`a/b/c` this is `a`, `a/b`). -/
def parentDirs (p : String) : List String :=
  let parts := splitOnSlash p
  (List.range (parts.length - 1)).map (fun k => joinSlash (parts.take (k + 1)))

/-- Record a directory as existing, keeping the list duplicate-free. -/
def insertDir (fs : List String) (d : String) : List String :=
  if fs.contains d then fs else fs ++ [d]

/-- The creation effect of `Path.mkdir(parents=True)` on the set of
existing directories: create every missing ancestor, outermost first,
then the directory itself. -/
def mkdirParentsFs (fs : List String) (p : String) : List String :=
  insertDir ((parentDirs p).foldl insertDir fs) p

/-- Model of `Path.mkdir(parents, exist_ok)` over a directory set:
`FileExistsError` when the directory exists and `exist_ok` is off,
`FileNotFoundError` when `parents` is off and the immediate parent is
missing, otherwise the updated set of directories. -/
def pathMkdir (fs : List String) (p : String) (parents exist_ok : Bool) :
    Except String (List String) :=
  if fs.contains p then
    if exist_ok then .ok fs else .error "FileExistsError"
  else if parents then .ok (mkdirParentsFs fs p)
  else if (parentDirs p).getLastD "" == ""
      || fs.contains ((parentDirs p).getLastD "") then
    .ok (insertDir fs p)
  else .error "FileNotFoundError"

/-- A directory set is parent-closed when the ancestors of every listed
directory are also listed; every real filesystem state satisfies this. -/
def fsParentsClosed (fs : List String) : Bool :=
  fs.all (fun d => (parentDirs d).all fs.contains)

/-- The observable outcome of `build_python_package_from_pip`: the
returned value or raised error, the directory set after the call, and
the argument lists passed to `subprocess.run`, in order. -/
structure BuildOutcome where
  result : Except PyError String
  fs : List String
  runs : List (List String)

/-- Embedding of `build_python_package_from_pip` (`lpm.py` lines
81-120): resolve the interpreter (forwarding `python_executable`),
ensure the destination directory exists with
`mkdir(parents=True, exist_ok=True)`, build the `pip wheel` command,
extend it with `extra_pip_args` when truthy, and run it with
`check=True` so that a non-zero exit raises `CalledProcessError`.
`runExit` gives the exit status of the external tool for a command run
under the optional replacement environment `procEnv` (the `env=`
keyword), whose content is otherwise opaque to this function. -/
def build_python_package_from_pip (env : SysEnv)
    (runExit : List String → Option (List (String × String)) → Int)
    (fs : List String) (package : String) (destination : String)
    (python_executable : Option String)
    (extra_pip_args : Option (List String))
    (procEnv : Option (List (String × String))) : BuildOutcome :=
  match _resolve_python_executable env python_executable with
  | .error msg => ⟨.error (.runtimeError msg), fs, []⟩
  | .ok interpreter =>
    match pathMkdir fs (pathStr destination) true true with
    | .error msg => ⟨.error (.osError msg), fs, []⟩
    | .ok fs2 =>
      let base := [interpreter, "-m", "pip", "wheel", package,
        "--no-deps", "-w", pathStr destination]
      let cmd := match extra_pip_args with
        | some args => if args.isEmpty then base else base ++ args
        | none => base
      if runExit cmd procEnv = 0 then ⟨.ok interpreter, fs2, [cmd]⟩
      else ⟨.error (.calledProcessError (runExit cmd procEnv) cmd), fs2, [cmd]⟩

/-- The fixed tokens of the `pip wheel` invocation, before any extra
arguments. -/
def wheelBaseCmd (interpreter package destination : String) : List String :=
  [interpreter, "-m", "pip", "wheel", package, "--no-deps", "-w",
    pathStr destination]

/-- The arguments that `cmd.extend(extra_pip_args)` contributes: the
given list, or nothing when the argument is absent. -/
def extraArgsList : Option (List String) → List String
  | some args => args
  | none => []

/-- The candidate loop returns exactly the first list entry satisfying
the survival predicate. -/
theorem firstUsable_eq_find (env : SysEnv) (cs : List (Option String)) :
    firstUsable env cs = (cs.find? (specSurvives env)).bind id := by
  induction cs with
  | nil => rfl
  | cons c rest ih =>
    cases c with
    | none => simpa [firstUsable, List.find?, specSurvives] using ih
    | some cand =>
      cases h1 : (cand.isEmpty || !env.pathExists cand) with
      | true =>
        have hs : specSurvives env (some cand) = false := by
          cases h2 : cand.isEmpty with
          | true => simp [specSurvives, h2]
          | false =>
            have h3 : env.pathExists cand = false := by
              cases h3 : env.pathExists cand with
              | false => rfl
              | true => simp [h2, h3] at h1
            simp [specSurvives, h3]
        simpa [firstUsable, h1, List.find?, hs] using ih
      | false =>
        have hne : cand.isEmpty = false := by
          cases h2 : cand.isEmpty with
          | false => rfl
          | true => simp [h2] at h1
        have hex : env.pathExists cand = true := by
          cases h3 : env.pathExists cand with
          | true => rfl
          | false => simp [hne, h3] at h1
        cases h2 : launcherRejected env cand with
        | true =>
          have hs : specSurvives env (some cand) = false := by
            simp [specSurvives, h2]
          simpa [firstUsable, h1, h2, List.find?, hs] using ih
        | false =>
          have hs : specSurvives env (some cand) = true := by
            simp [specSurvives, hne, hex, h2]
          simp [firstUsable, h1, h2, List.find?, hs]

/-- Finding the first survivor over the code's candidate list (self only
when truthy and existing) agrees with finding it over the spec's
unconditional priority list, since a falsy or missing self entry never
survives. -/
theorem candidates_find_eq (env : SysEnv) :
    (candidates env).find? (specSurvives env)
      = (specOrderedCandidates env).find? (specSurvives env) := by
  cases hb : (!env.executable.isEmpty && env.pathExists env.executable) with
  | true => simp [candidates, specOrderedCandidates, hb]
  | false =>
    have hs : specSurvives env (some env.executable) = false := by
      simp only [specSurvives]
      rw [hb]
      rfl
    simp [candidates, specOrderedCandidates, hb, List.find?, hs]

/-- Any path returned by the candidate loop is non-empty, exists on disk,
and is not launcher-rejected. -/
theorem firstUsable_sound (env : SysEnv) (cs : List (Option String))
    (p : String) (h : firstUsable env cs = some p) :
    p.isEmpty = false ∧ env.pathExists p = true
      ∧ launcherRejected env p = false := by
  induction cs with
  | nil => simp [firstUsable] at h
  | cons c rest ih =>
    match c with
    | none => exact ih (by simpa [firstUsable] using h)
    | some cand =>
      cases h1 : (cand.isEmpty || !env.pathExists cand) with
      | true => exact ih (by simpa [firstUsable, h1] using h)
      | false =>
        cases h2 : launcherRejected env cand with
        | true => exact ih (by simpa [firstUsable, h1, h2] using h)
        | false =>
          have hp : cand = p := by simpa [firstUsable, h1, h2] using h
          subst hp
          have hne : cand.isEmpty = false := by
            cases hh : cand.isEmpty with
            | false => rfl
            | true => simp [hh] at h1
          have hex : env.pathExists cand = true := by
            cases hh : env.pathExists cand with
            | true => rfl
            | false => simp [hne, hh] at h1
          exact ⟨hne, hex, h2⟩

end LPM

namespace LPM

/-- C2: a non-empty explicit interpreter path is returned exactly as
given, with no existence check or other validation: the result is `.ok e`
for every environment, including ones where `e` does not exist. -/
theorem resolve_explicit_returned_verbatim (env : SysEnv) (e : String)
    (h : e.isEmpty = false) :
    _resolve_python_executable env (some e) = .ok e := by
  simp [_resolve_python_executable, h]

/-- Witness for C2 at a concrete non-empty explicit path, in an
environment where that path does not exist. -/
theorem resolve_explicit_returned_verbatim_witness :
    _resolve_python_executable envNothing (some "/opt/custom/python") =
      .ok "/opt/custom/python" :=
  resolve_explicit_returned_verbatim envNothing "/opt/custom/python" rfl

/-- C6: in a non-frozen process, the self interpreter is accepted whatever
its basename is, provided it is non-empty and exists on disk. -/
theorem resolve_accepts_self_when_not_frozen (env : SysEnv)
    (hfr : env.frozen = false)
    (hne : env.executable.isEmpty = false)
    (hex : env.pathExists env.executable = true) :
    _resolve_python_executable env none = .ok env.executable := by
  simp [_resolve_python_executable, resolveFromCandidates, candidates,
    hfr, hne, hex, firstUsable, launcherRejected]

/-- Witness for C6: a non-frozen environment whose interpreter basename
is `python3.11` resolves to the self interpreter; the basename here is
irrelevant since the frozen flag is off. -/
theorem resolve_accepts_self_when_not_frozen_witness :
    _resolve_python_executable envPlain none = .ok "/usr/bin/python3.11" :=
  resolve_accepts_self_when_not_frozen envPlain rfl rfl rfl

/-- C5: with no explicit path, resolution returns exactly the first
candidate of the fixed priority list self interpreter, PATH `python3`,
PATH `python` that is non-empty, exists on disk, and is not rejected by
the frozen-launcher check, and fails exactly when no candidate
survives. -/
theorem resolve_first_surviving_candidate_order (env : SysEnv) :
    (_resolve_python_executable env none).toOption = specFirstSurvivor env := by
  unfold _resolve_python_executable resolveFromCandidates specFirstSurvivor
  rw [firstUsable_eq_find, candidates_find_eq]
  cases hfind : (specOrderedCandidates env).find? (specSurvives env) with
  | none => simp [Except.toOption]
  | some c =>
    cases c with
    | none =>
      have := List.find?_some hfind
      simp [specSurvives] at this
    | some cand => simp [Except.toOption]

/-- C1 counterexample: a non-empty explicit path is returned as the
resolution result even in an environment where no path at all exists on
disk, so resolution can return a non-existent path. -/
theorem resolve_explicit_nonexistent_returned :
    _resolve_python_executable envNothing (some "/no/such/interpreter")
        = .ok "/no/such/interpreter"
      ∧ envNothing.pathExists "/no/such/interpreter" = false :=
  ⟨rfl, rfl⟩

/-- C1 (amended): when the explicit argument is absent or empty, any path
returned by resolution exists on disk and is not excluded by the
frozen-launcher condition; a non-empty explicit path is exempt from the
invariant because it is returned unvalidated. -/
theorem resolve_search_result_exists_not_excluded (env : SysEnv)
    (explicit : Option String) (p : String)
    (hexp : explicit.getD "" = "")
    (h : _resolve_python_executable env explicit = .ok p) :
    env.pathExists p = true ∧ launcherRejected env p = false := by
  have hres : resolveFromCandidates env = .ok p := by
    cases explicit with
    | none => simpa [_resolve_python_executable] using h
    | some e =>
      have he : e = "" := by simpa using hexp
      subst he
      simpa [_resolve_python_executable] using h
  have hfu : firstUsable env (candidates env) = some p := by
    unfold resolveFromCandidates at hres
    cases hh : firstUsable env (candidates env) with
    | none => rw [hh] at hres; simp at hres
    | some q => rw [hh] at hres; simp at hres; rw [hres]
  obtain ⟨-, hex, hrej⟩ := firstUsable_sound env (candidates env) p hfu
  exact ⟨hex, hrej⟩

/-- Witness for the amended C1: a concrete candidate-search resolution
whose result exists and is not excluded. -/
theorem resolve_search_result_exists_not_excluded_witness :
    envPlain.pathExists "/usr/bin/python3.11" = true
      ∧ launcherRejected envPlain "/usr/bin/python3.11" = false :=
  resolve_search_result_exists_not_excluded envPlain none
    "/usr/bin/python3.11" rfl rfl

/-- C3 counterexample: with a non-existent self interpreter and empty
PATH results, the candidate list holds only the two `which` entries — the
self path `/frozen/lpm` is not among the candidates considered — so the
failure message enumerates exactly two entries, not three. -/
theorem resolve_failure_message_omits_missing_self :
    candidates envNothing = [none, none]
      ∧ some envNothing.executable ∉ candidates envNothing
      ∧ _resolve_python_executable envNothing none
          = .error ("Unable to determine a Python interpreter; tried the "
              ++ "following candidates: None, None") :=
  ⟨rfl, by decide, rfl⟩

/-- C3 (amended): when the self interpreter does not exist and PATH
yields neither `python3` nor `python`, resolution fails with a message
enumerating the candidates considered, which are only the two empty PATH
lookups; the non-existent self path is not appended to the candidate
list, so the message enumerates two entries, not three. -/
theorem resolve_failure_lists_two_path_candidates (env : SysEnv)
    (hself : env.pathExists env.executable = false)
    (h3 : env.whichPython3 = none) (hp : env.whichPython = none) :
    _resolve_python_executable env none
        = .error (resolutionErrorMessage [none, none])
      ∧ (candidates env).length = 2 := by
  have hc : candidates env = [none, none] := by
    simp [candidates, hself, h3, hp]
  constructor
  · simp [_resolve_python_executable, resolveFromCandidates, hc, firstUsable]
  · simp [hc]

/-- Witness for the amended C3 at a concrete environment. -/
theorem resolve_failure_lists_two_path_candidates_witness :
    _resolve_python_executable envNothing none
        = .error (resolutionErrorMessage [none, none])
      ∧ (candidates envNothing).length = 2 :=
  resolve_failure_lists_two_path_candidates envNothing rfl rfl rfl

/-- A string beginning with `python3` also begins with `python`. -/
theorem startswith_python3_mono (s : String) (h : startswith s "python3" = true) :
    startswith s "python" = true := by
  unfold startswith at h ⊢
  have l6 : "python".length = 6 := rfl
  have l7 : "python3".length = 7 := rfl
  rw [l7] at h
  rw [l6]
  have h' : s.toList.take 7 = "python3".toList := eq_of_beq h
  have h6 := congrArg (List.take 6) h'
  rw [List.take_take] at h6
  have hmin : min 6 7 = 6 := by decide
  rw [hmin] at h6
  have hrhs : List.take 6 ("python3".toList) = "python".toList := by decide
  rw [hrhs] at h6
  rw [h6]
  simp

/-- C4: the frozen-launcher filename heuristic can never reject a
candidate produced by the PATH search, for every frozen flag, self path
and lookup outcome, because `shutil.which("python3")` /
`shutil.which("python")` only return paths whose basename starts with the
searched command name, which begins with `python`. -/
theorem which_candidates_never_launcher_rejected (env : SysEnv)
    (h3 : ∀ p, env.whichPython3 = some p → startswith (basename p) "python3" = true)
    (hp : ∀ p, env.whichPython = some p → startswith (basename p) "python" = true) :
    (∀ p, env.whichPython3 = some p → launcherRejected env p = false)
      ∧ (∀ p, env.whichPython = some p → launcherRejected env p = false) := by
  constructor
  · intro p hpp
    have hs := startswith_python3_mono _ (h3 p hpp)
    simp [launcherRejected, hs]
  · intro p hpp
    have hs := hp p hpp
    simp [launcherRejected, hs]

/-- Witness for C4: in a frozen bundle whose launcher basename is
`launcher`, the PATH-discovered `python3` is not rejected by the
heuristic, and resolution skips the launcher and returns it. -/
theorem which_candidates_never_launcher_rejected_witness :
    launcherRejected envFrozen "/usr/bin/python3" = false
      ∧ _resolve_python_executable envFrozen none = .ok "/usr/bin/python3" := by
  refine ⟨(which_candidates_never_launcher_rejected envFrozen ?_ ?_).1
    "/usr/bin/python3" rfl, ?_⟩
  · intro p hpp
    injection hpp with h
    subst h
    decide
  · intro p hpp
    simp [envFrozen] at hpp
  · rfl

/-- Containment in a directory list agrees with list membership. -/
theorem contains_iff_mem {fs : List String} {d : String} :
    fs.contains d = true ↔ d ∈ fs := by
  simp [List.contains]

/-- Inserting a directory makes it present. -/
theorem mem_insertDir_self (fs : List String) (d : String) :
    d ∈ insertDir fs d := by
  unfold insertDir
  cases h : fs.contains d with
  | true => simpa using contains_iff_mem.mp h
  | false => simp

/-- Inserting a directory keeps every present directory present. -/
theorem mem_insertDir_of_mem (fs : List String) (d x : String)
    (h : x ∈ fs) : x ∈ insertDir fs d := by
  unfold insertDir
  split
  · exact h
  · exact List.mem_append_left _ h

/-- Folded insertion keeps every present directory present. -/
theorem mem_foldl_insertDir_of_mem (ds : List String) (fs : List String)
    (x : String) (h : x ∈ fs) : x ∈ ds.foldl insertDir fs := by
  induction ds generalizing fs with
  | nil => simpa using h
  | cons d rest ih => exact ih (insertDir fs d) (mem_insertDir_of_mem fs d x h)

/-- Folded insertion makes every inserted directory present. -/
theorem mem_foldl_insertDir (ds : List String) (fs : List String)
    (d : String) (h : d ∈ ds) : d ∈ ds.foldl insertDir fs := by
  induction h generalizing fs with
  | head rest =>
    exact mem_foldl_insertDir_of_mem rest _ _ (mem_insertDir_self fs d)
  | tail b hmem ih => exact ih (insertDir fs b)

/-- `mkdir(parents=True)` creation makes the target present. -/
theorem mem_mkdirParentsFs_self (fs : List String) (p : String) :
    p ∈ mkdirParentsFs fs p :=
  mem_insertDir_self _ _

/-- `mkdir(parents=True)` creation makes every ancestor present. -/
theorem mem_mkdirParentsFs_parent (fs : List String) (p d : String)
    (h : d ∈ parentDirs p) : d ∈ mkdirParentsFs fs p :=
  mem_insertDir_of_mem _ _ _ (mem_foldl_insertDir _ _ _ h)

/-- `mkdir(parents=True)` creation keeps every present directory
present. -/
theorem mem_mkdirParentsFs_of_mem (fs : List String) (p x : String)
    (h : x ∈ fs) : x ∈ mkdirParentsFs fs p :=
  mem_insertDir_of_mem _ _ _ (mem_foldl_insertDir_of_mem _ _ _ h)

/-- With `parents=True` and `exist_ok=True` the mkdir model never
errors: it leaves the set unchanged when the directory exists and
creates the missing chain otherwise. -/
theorem pathMkdir_parents_exist_ok (fs : List String) (p : String) :
    pathMkdir fs p true true
      = .ok (if fs.contains p then fs else mkdirParentsFs fs p) := by
  unfold pathMkdir
  cases h : fs.contains p with
  | true => simp [h]
  | false => simp [h]

/-- After `mkdir(parents=True, exist_ok=True)` on a parent-closed
directory set, the call has succeeded and the target, all its ancestors,
and every previously present directory exist. -/
theorem pathMkdir_result_props (fs : List String) (p : String)
    (hfs : fsParentsClosed fs = true) :
    ∃ fs2, pathMkdir fs p true true = .ok fs2
      ∧ fs2.contains p = true
      ∧ (parentDirs p).all fs2.contains = true
      ∧ fs.all fs2.contains = true := by
  rw [pathMkdir_parents_exist_ok]
  cases h : fs.contains p with
  | true =>
    refine ⟨fs, by simp [h], h, ?_, ?_⟩
    · have hcl := List.all_eq_true.mp hfs p (contains_iff_mem.mp h)
      simpa using hcl
    · exact List.all_eq_true.mpr fun d hd => contains_iff_mem.mpr hd
  | false =>
    refine ⟨mkdirParentsFs fs p, by simp [h], ?_, ?_, ?_⟩
    · exact contains_iff_mem.mpr (mem_mkdirParentsFs_self fs p)
    · exact List.all_eq_true.mpr fun d hd =>
        contains_iff_mem.mpr (mem_mkdirParentsFs_parent fs p d hd)
    · exact List.all_eq_true.mpr fun d hd =>
        contains_iff_mem.mpr (mem_mkdirParentsFs_of_mem fs p d hd)

/-- Once resolution and the destination mkdir have succeeded, the build
reduces to the single `pip wheel` invocation: the fixed tokens followed
by the extra arguments, with the two exit-status branches. -/
theorem build_unfold_ok (env : SysEnv)
    (runExit : List String → Option (List (String × String)) → Int)
    (fs : List String) (package destination : String)
    (pyexe : Option String) (extra : Option (List String))
    (procEnv : Option (List (String × String)))
    (interp : String) (fs2 : List String)
    (hres : _resolve_python_executable env pyexe = .ok interp)
    (hmk : pathMkdir fs (pathStr destination) true true = .ok fs2) :
    build_python_package_from_pip env runExit fs package destination
        pyexe extra procEnv
      = (if runExit (wheelBaseCmd interp package destination
              ++ extraArgsList extra) procEnv = 0
         then ⟨.ok interp, fs2,
            [wheelBaseCmd interp package destination ++ extraArgsList extra]⟩
         else ⟨.error (.calledProcessError
              (runExit (wheelBaseCmd interp package destination
                  ++ extraArgsList extra) procEnv)
              (wheelBaseCmd interp package destination ++ extraArgsList extra)),
            fs2,
            [wheelBaseCmd interp package destination ++ extraArgsList extra]⟩) := by
  unfold build_python_package_from_pip wheelBaseCmd extraArgsList
  rw [hres, hmk]
  cases extra with
  | none => simp
  | some args =>
    cases h : args.isEmpty with
    | true =>
      have hnil : args = [] := List.isEmpty_iff.mp h
      subst hnil
      simp
    | false => simp [h]

/-- C7: whenever resolution succeeds, the build performs the destination
`mkdir(parents=True, exist_ok=True)` — which cannot fail — before its
single build-tool invocation: afterwards the destination directory and
all its missing ancestors exist, every previously existing directory
still exists, and the tool was invoked exactly once. -/
theorem build_creates_destination_before_run (env : SysEnv)
    (runExit : List String → Option (List (String × String)) → Int)
    (fs : List String) (package destination : String)
    (pyexe : Option String) (extra : Option (List String))
    (procEnv : Option (List (String × String))) (out : BuildOutcome)
    (hout : build_python_package_from_pip env runExit fs package destination
        pyexe extra procEnv = out)
    (hres : ∃ interp, _resolve_python_executable env pyexe = .ok interp)
    (hfs : fsParentsClosed fs = true) :
    pathMkdir fs (pathStr destination) true true = .ok out.fs
      ∧ out.fs.contains (pathStr destination) = true
      ∧ (parentDirs (pathStr destination)).all out.fs.contains = true
      ∧ fs.all out.fs.contains = true
      ∧ out.runs.length = 1 := by
  obtain ⟨interp, hres⟩ := hres
  obtain ⟨fs2, hmk, hc, hpar, hold⟩ :=
    pathMkdir_result_props fs (pathStr destination) hfs
  rw [build_unfold_ok env runExit fs package destination pyexe extra procEnv
    interp fs2 hres hmk] at hout
  have hcomp : out.fs = fs2 ∧ out.runs.length = 1 := by
    split at hout <;> (subst hout; exact ⟨rfl, rfl⟩)
  obtain ⟨h1, h2⟩ := hcomp
  rw [h1]
  exact ⟨hmk, hc, hpar, hold, h2⟩

/-- Witness for C7 on an initially empty filesystem and the destination
`out/dir`: its parent `out` and the directory itself are created and the
tool runs once. -/
theorem build_creates_destination_before_run_witness :
    pathMkdir [] (pathStr "out/dir") true true
        = .ok (build_python_package_from_pip envPlain (fun _ _ => 0) []
            "requests" "out/dir" none none none).fs
      ∧ (build_python_package_from_pip envPlain (fun _ _ => 0) []
          "requests" "out/dir" none none none).fs.contains
            (pathStr "out/dir") = true
      ∧ (parentDirs (pathStr "out/dir")).all
          (build_python_package_from_pip envPlain (fun _ _ => 0) []
            "requests" "out/dir" none none none).fs.contains = true
      ∧ ([] : List String).all
          (build_python_package_from_pip envPlain (fun _ _ => 0) []
            "requests" "out/dir" none none none).fs.contains = true
      ∧ (build_python_package_from_pip envPlain (fun _ _ => 0) []
          "requests" "out/dir" none none none).runs.length = 1 :=
  build_creates_destination_before_run envPlain (fun _ _ => 0) []
    "requests" "out/dir" none none none _ rfl
    ⟨"/usr/bin/python3.11", rfl⟩ rfl

/-- C8: the extra arguments appear in the constructed invocation
verbatim and in order, directly after the fixed tokens interpreter,
`-m`, `pip`, `wheel`, the package, `--no-deps`, `-w` and the output
directory. -/
theorem build_extra_args_appended_in_order (env : SysEnv)
    (runExit : List String → Option (List (String × String)) → Int)
    (fs : List String) (package destination : String)
    (pyexe : Option String) (extras : List String)
    (procEnv : Option (List (String × String)))
    (interp : String) (out : BuildOutcome)
    (hres : _resolve_python_executable env pyexe = .ok interp)
    (hout : build_python_package_from_pip env runExit fs package destination
        pyexe (some extras) procEnv = out) :
    out.runs = [[interp, "-m", "pip", "wheel", package, "--no-deps", "-w",
      pathStr destination] ++ extras] := by
  rw [build_unfold_ok env runExit fs package destination pyexe (some extras)
    procEnv interp _ hres (pathMkdir_parents_exist_ok fs (pathStr destination))]
    at hout
  split at hout <;> (subst hout; simp [wheelBaseCmd, extraArgsList])

/-- Witness for C8 with the extra arguments `--pre`, `--verbose`. -/
theorem build_extra_args_appended_in_order_witness :
    (build_python_package_from_pip envPlain (fun _ _ => 0) [] "requests"
        "out" none (some ["--pre", "--verbose"]) none).runs
      = [["/usr/bin/python3.11", "-m", "pip", "wheel", "requests",
          "--no-deps", "-w", pathStr "out"] ++ ["--pre", "--verbose"]] :=
  build_extra_args_appended_in_order envPlain (fun _ _ => 0) [] "requests"
    "out" none ["--pre", "--verbose"] none "/usr/bin/python3.11" _ rfl rfl

/-- C9: after a successful resolution the build tool is invoked exactly
once, a zero exit status yields the interpreter path with no error, and
a non-zero exit status yields exactly the `CalledProcessError` carrying
that status; no retry happens. -/
theorem build_error_iff_nonzero_exit (env : SysEnv)
    (runExit : List String → Option (List (String × String)) → Int)
    (fs : List String) (package destination : String)
    (pyexe : Option String) (extra : Option (List String))
    (procEnv : Option (List (String × String)))
    (interp : String) (out : BuildOutcome)
    (hres : _resolve_python_executable env pyexe = .ok interp)
    (hout : build_python_package_from_pip env runExit fs package destination
        pyexe extra procEnv = out) :
    out.runs = [wheelBaseCmd interp package destination ++ extraArgsList extra]
      ∧ (runExit (wheelBaseCmd interp package destination
            ++ extraArgsList extra) procEnv = 0 → out.result = .ok interp)
      ∧ (runExit (wheelBaseCmd interp package destination
            ++ extraArgsList extra) procEnv ≠ 0 →
          out.result = .error (.calledProcessError
            (runExit (wheelBaseCmd interp package destination
              ++ extraArgsList extra) procEnv)
            (wheelBaseCmd interp package destination ++ extraArgsList extra))) := by
  rw [build_unfold_ok env runExit fs package destination pyexe extra
    procEnv interp _ hres (pathMkdir_parents_exist_ok fs (pathStr destination))]
    at hout
  by_cases h0 : runExit (wheelBaseCmd interp package destination
      ++ extraArgsList extra) procEnv = 0
  · rw [if_pos h0] at hout
    subst hout
    exact ⟨rfl, fun _ => rfl, fun hne => absurd h0 hne⟩
  · rw [if_neg h0] at hout
    subst hout
    exact ⟨rfl, fun heq => absurd heq h0, fun _ => rfl⟩

/-- Witness for C9 with a build tool exiting with status 1: the result
is the `CalledProcessError` for that command, which ran once. -/
theorem build_error_iff_nonzero_exit_witness :
    (build_python_package_from_pip envPlain (fun _ _ => (1 : Int)) []
        "requests" "out" none none none).result
      = .error (.calledProcessError 1
          (wheelBaseCmd "/usr/bin/python3.11" "requests" "out"
            ++ extraArgsList none))
      ∧ (build_python_package_from_pip envPlain (fun _ _ => (1 : Int)) []
          "requests" "out" none none none).runs
        = [wheelBaseCmd "/usr/bin/python3.11" "requests" "out"
            ++ extraArgsList none] :=
  ⟨(build_error_iff_nonzero_exit envPlain (fun _ _ => (1 : Int)) []
      "requests" "out" none none none "/usr/bin/python3.11" _ rfl rfl).2.2
      (by decide),
   (build_error_iff_nonzero_exit envPlain (fun _ _ => (1 : Int)) []
      "requests" "out" none none none "/usr/bin/python3.11" _ rfl rfl).1⟩

/-- C10: when resolution fails, the `RuntimeError` propagates out of the
build before anything happens: the directory set is returned untouched
and no command is passed to `subprocess.run`. -/
theorem build_resolution_error_touches_nothing (env : SysEnv)
    (runExit : List String → Option (List (String × String)) → Int)
    (fs : List String) (package destination : String)
    (pyexe : Option String) (extra : Option (List String))
    (procEnv : Option (List (String × String))) (msg : String)
    (hres : _resolve_python_executable env pyexe = .error msg) :
    build_python_package_from_pip env runExit fs package destination
        pyexe extra procEnv
      = ⟨.error (.runtimeError msg), fs, []⟩ := by
  unfold build_python_package_from_pip
  rw [hres]

/-- Witness for C10: with no interpreter available, the build returns
the resolution error, the pre-existing directory set unchanged, and an
empty run trace. -/
theorem build_resolution_error_touches_nothing_witness :
    build_python_package_from_pip envNothing (fun _ _ => 0) ["existing"]
        "requests" "out/dir" none none none
      = ⟨.error (.runtimeError (resolutionErrorMessage [none, none])),
         ["existing"], []⟩ :=
  build_resolution_error_touches_nothing envNothing (fun _ _ => 0)
    ["existing"] "requests" "out/dir" none none none
    (resolutionErrorMessage [none, none]) rfl

end LPM
